import Mathlib

/-!
Verification of the ingestion/deduplication module of the NYT bestsellers
dashboard (`get_data.py`), as a shallow embedding in Lean 4.

Modelling conventions:
* A JSON scalar value is `Value` (null, integer, string, or a timestamp).
* A Python dict field accessed via `.get` is an `Option Value` in a structure;
  `pyGet` is `dict.get(k)` (default `None`), `pyGetD` is `dict.get(k, d)`.
* A MongoDB collection is the list of its documents, in insertion order;
  collection-mutating functions take the collection as a parameter and return
  the new collection alongside the source function's return value.
* `datetime.now()` is modelled by an explicit clock argument `now : Nat`.
* The HTTP layer (`requests.get` + `response.json()`) is an oracle parameter
  producing either a raised exception or parsed JSON; a Python exception that
  the source does not catch becomes `Except.error`.
-/

/-- A JSON/BSON scalar value as used by the ingestion module. -/
inductive Value where
  | vnull : Value
  | vint : Int → Value
  | vstr : String → Value
  | vtime : Nat → Value
deriving DecidableEq, Repr

/-- `dict.get(key)`: the stored value, or `None` when the key is absent. -/
def pyGet (field : Option Value) : Value :=
  field.getD Value.vnull

/-- `dict.get(key, dflt)`: the stored value, or `dflt` when the key is absent. -/
def pyGetD (field : Option Value) (dflt : Value) : Value :=
  field.getD dflt

/-- Python `x or y` where `x` is an optional string (`None` and `""` are
falsy), as in `list_name or results.get('list_name', '')`. -/
def pyOrStr (x : Option String) (y : Value) : Value :=
  match x with
  | some s => if s = "" then y else Value.vstr s
  | none => y

/-- One entry of the `books` array of an API snapshot: the fields the code
reads via `book.get(...)`; `none` represents an absent key. -/
structure Book where
  rank : Option Value := none
  rank_last_week : Option Value := none
  weeks_on_list : Option Value := none
  title : Option Value := none
  author : Option Value := none
  publisher : Option Value := none
  description : Option Value := none
  price : Option Value := none
  primary_isbn10 : Option Value := none
  primary_isbn13 : Option Value := none
  amazon_product_url : Option Value := none
deriving DecidableEq, Repr

/-- The `results` object of a snapshot: shared metadata (read via
`results.get(...)`) plus the `books` array (read via `results['books']`). -/
structure Results where
  list_name : Option Value := none
  bestsellers_date : Option Value := none
  published_date : Option Value := none
  books : List Book := []
deriving DecidableEq, Repr

/-- One flattened row: the fixed field set that both `results_to_dataframe`
and the Mongo writers extract (`get_data.py` lines 88-103 and 128-142). -/
structure FlatRecord where
  list_name : Value
  bestsellers_date : Value
  published_date : Value
  rank : Value
  rank_last_week : Value
  weeks_on_list : Value
  title : Value
  author : Value
  publisher : Value
  description : Value
  price : Value
  primary_isbn10 : Value
  primary_isbn13 : Value
  amazon_product_url : Value
deriving DecidableEq, Repr

/-- A stored MongoDB document: the flattened fields plus the `fetched_at`
write timestamp (`get_data.py` lines 128-144). -/
structure Doc where
  fields : FlatRecord
  fetched_at : Nat
deriving DecidableEq, Repr

/-- `results_to_dataframe`'s per-book flattening (`get_data.py` lines 88-103):
shared metadata copied from `results`, per-item fields via `book.get`. -/
def flatten_book (results : Results) (list_name : Option String) (book : Book) :
    FlatRecord where
  list_name := pyOrStr list_name (pyGetD results.list_name (Value.vstr ""))
  bestsellers_date := pyGetD results.bestsellers_date (Value.vstr "")
  published_date := pyGetD results.published_date (Value.vstr "")
  rank := pyGet book.rank
  rank_last_week := pyGet book.rank_last_week
  weeks_on_list := pyGet book.weeks_on_list
  title := pyGet book.title
  author := pyGet book.author
  publisher := pyGet book.publisher
  description := pyGet book.description
  price := pyGet book.price
  primary_isbn10 := pyGet book.primary_isbn10
  primary_isbn13 := pyGet book.primary_isbn13
  amazon_product_url := pyGet book.amazon_product_url

/-- `results_to_dataframe(results, list_name=None)` (`get_data.py` lines
82-106): one flat record per entry of `results['books']`.  The final
`pd.DataFrame(flattened_data)` preserves the rows and their order, so the
DataFrame is modelled as the list of flattened rows. -/
def results_to_dataframe (results : Results) (list_name : Option String := none) :
    List FlatRecord :=
  results.books.map (flatten_book results list_name)

/-- The dedup key dict built by the writers (`get_data.py` lines 118-122). -/
structure UniqueKey where
  list_name : Value
  bestsellers_date : Value
  primary_isbn13 : Value
deriving DecidableEq, Repr

/-- Whether a stored document matches the Mongo filter
`{'list_name': .., 'bestsellers_date': .., 'primary_isbn13': ..}`:
each filtered field of the document equals the filter's value. -/
def matchesKey (key : UniqueKey) (doc : Doc) : Bool :=
  decide (doc.fields.list_name = key.list_name) &&
  decide (doc.fields.bestsellers_date = key.bestsellers_date) &&
  decide (doc.fields.primary_isbn13 = key.primary_isbn13)

/-- `collection.find_one(unique_key)`: some matching document, or `None`. -/
def find_one (coll : List Doc) (key : UniqueKey) : Option Doc :=
  coll.find? (matchesKey key)

/-- The `unique_key` computed per book by both writers (`get_data.py`
lines 118-122 and 193-197). -/
def uniqueKeyOf (results : Results) (list_name : Option String) (book : Book) :
    UniqueKey where
  list_name := pyOrStr list_name (pyGetD results.list_name (Value.vstr ""))
  bestsellers_date := pyGetD results.bestsellers_date (Value.vstr "")
  primary_isbn13 := pyGet book.primary_isbn13

/-- The `doc` dict staged by the writers (`get_data.py` lines 128-144): the
same field extraction as `results_to_dataframe`, plus `fetched_at`. -/
def docOf (results : Results) (list_name : Option String) (now : Nat)
    (book : Book) : Doc where
  fields :=
    { list_name := pyOrStr list_name (pyGetD results.list_name (Value.vstr ""))
      bestsellers_date := pyGetD results.bestsellers_date (Value.vstr "")
      published_date := pyGetD results.published_date (Value.vstr "")
      rank := pyGet book.rank
      rank_last_week := pyGet book.rank_last_week
      weeks_on_list := pyGet book.weeks_on_list
      title := pyGet book.title
      author := pyGet book.author
      publisher := pyGet book.publisher
      description := pyGet book.description
      price := pyGet book.price
      primary_isbn10 := pyGet book.primary_isbn10
      primary_isbn13 := pyGet book.primary_isbn13
      amazon_product_url := pyGet book.amazon_product_url }
  fetched_at := now

/-- The `for book in books` staging loop shared verbatim by
`store_books_in_mongo` (lines 117-145) and `store_books_historical`
(lines 192-220): skip a book whose `unique_key` is found by `find_one`
on the target collection, otherwise stage its document.  The existence
check consults only the collection, never the `documents` staging list. -/
def stageDocs (coll : List Doc) (results : Results) (list_name : Option String)
    (now : Nat) : List Book → List Doc
  | [] => []
  | book :: rest =>
    if (find_one coll (uniqueKeyOf results list_name book)).isSome then
      stageDocs coll results list_name now rest
    else
      docOf results list_name now book :: stageDocs coll results list_name now rest

/-- `store_books_in_mongo(results, list_name=None)` (`get_data.py` lines
112-150): stage the non-duplicate documents, then `insert_many` them in one
bulk call and return `len(result.inserted_ids)`, or return 0 when nothing was
staged.  Returns (inserted count, new collection state). -/
def store_books_in_mongo (books_collection : List Doc) (results : Results)
    (list_name : Option String := none) (now : Nat := 0) : Nat × List Doc :=
  let documents := stageDocs books_collection results list_name now results.books
  if documents.isEmpty then (0, books_collection)
  else (documents.length, books_collection ++ documents)

/-- `store_books_historical(results, list_name=None)` (`get_data.py` lines
185-226): textually the same loop and bulk insert as `store_books_in_mongo`,
directed at the historical collection; the `time.sleep(0.5)` after the insert
has no effect on the stored state and is not modelled. -/
def store_books_historical (historical_collection : List Doc) (results : Results)
    (list_name : Option String := none) (now : Nat := 0) : Nat × List Doc :=
  let documents := stageDocs historical_collection results list_name now results.books
  if documents.isEmpty then (0, historical_collection)
  else (documents.length, historical_collection ++ documents)

/-- Mongo/BSON cross-type ordering restricted to the value types in play:
null sorts before numbers, numbers before strings, strings before dates;
within a type the natural order. -/
def valueLe : Value → Value → Bool
  | Value.vnull, _ => true
  | Value.vint _, Value.vnull => false
  | Value.vint a, Value.vint b => decide (a ≤ b)
  | Value.vint _, _ => true
  | Value.vstr _, Value.vnull => false
  | Value.vstr _, Value.vint _ => false
  | Value.vstr a, Value.vstr b => decide (a ≤ b)
  | Value.vstr _, _ => true
  | Value.vtime a, Value.vtime b => decide (a ≤ b)
  | Value.vtime _, _ => false

/-- Comparison of documents by their `bestsellers_date` field, as used by
`.sort('bestsellers_date', 1)`. -/
def dateLe (a b : Doc) : Bool :=
  valueLe a.fields.bestsellers_date b.fields.bestsellers_date

/-- `get_book_history(isbn13)` (`get_data.py` lines 167-170):
`books_collection.find({'primary_isbn13': isbn13}).sort('bestsellers_date', 1)`
materialized into a list — the matching documents sorted ascending by
snapshot date. -/
def get_book_history (books_collection : List Doc) (isbn13 : Value) : List Doc :=
  (books_collection.filter
      (fun doc => decide (doc.fields.primary_isbn13 = isbn13))).mergeSort dateLe

/-- `count_books()` (`get_data.py` lines 172-174):
`books_collection.count_documents({})` — the empty filter matches every
document. -/
def count_books (books_collection : List Doc) : Nat :=
  books_collection.length

/-- `collection.delete_many(filter)`: removes every matching document and
returns `deleted_count` alongside the new collection state. -/
def delete_many (coll : List Doc) (filter : Doc → Bool) : Nat × List Doc :=
  ((coll.filter filter).length, coll.filter (fun doc => ! filter doc))

/-- `clear_all_books()` (`get_data.py` lines 180-183):
`books_collection.delete_many({})` — the empty filter matches everything;
returns `result.deleted_count` and the emptied collection. -/
def clear_all_books (books_collection : List Doc) : Nat × List Doc :=
  delete_many books_collection (fun _ => true)

/-- The parsed JSON body of a list endpoint response: `data.get('status')`
and, when the `'results'` key is present, its value. -/
structure ApiData where
  status : Option Value := none
  results : Option Results := none

/-- Outcome of one HTTP request (`requests.get` followed by
`response.json()`): either a raised Python exception (network error, invalid
JSON, ...) or the parsed JSON body. -/
inductive FetchOutcome where
  | raised : String → FetchOutcome
  | response : ApiData → FetchOutcome

/-- True when the HTTP layer returned a parsed response rather than raising. -/
def FetchOutcome.isResponse : FetchOutcome → Bool
  | FetchOutcome.response _ => true
  | FetchOutcome.raised _ => false

/-- `get_best_sellers_by_list(list_name, date=None)` (`get_data.py` lines
33-49).  The HTTP layer is the oracle `http`, keyed by list name and optional
date.  The body has no try/except: a raised exception propagates
(`Except.error`).  Otherwise, `data['results']` is returned when
`data.get('status') == 'OK' and 'results' in data`, else `None`. -/
def get_best_sellers_by_list (http : String → Option Nat → FetchOutcome)
    (list_name : String) (date : Option Nat := none) :
    Except String (Option Results) :=
  match http list_name date with
  | FetchOutcome.raised e => Except.error e
  | FetchOutcome.response data =>
    if decide (data.status = some (Value.vstr "OK")) && data.results.isSome then
      Except.ok data.results
    else
      Except.ok none

/-- The `while current_date <= end` loop of `fetch_historical_data`
(`get_data.py` lines 70-79): fetch the current date, append the result when
truthy, step 7 days.  An exception raised by the uncaught HTTP call
propagates out of the loop, discarding the accumulated data. -/
def fetchLoop (http : String → Option Nat → FetchOutcome) (list_name : String)
    (current finish : Nat) : Except String (List (Nat × Results)) :=
  if current ≤ finish then
    match get_best_sellers_by_list http list_name (some current) with
    | Except.error e => Except.error e
    | Except.ok (some data) =>
      match fetchLoop http list_name (current + 7) finish with
      | Except.error e => Except.error e
      | Except.ok rest => Except.ok ((current, data) :: rest)
    | Except.ok none => fetchLoop http list_name (current + 7) finish
  else
    Except.ok []
termination_by finish + 1 - current
decreasing_by omega

/-- `fetch_historical_data(list_name, start_date, end_date)` (`get_data.py`
lines 62-80).  Dates are modelled as day numbers, so the `'%Y-%m-%d'`
parse/format round trip is the identity and `timedelta(days=7)` is `+ 7`. -/
def fetch_historical_data (http : String → Option Nat → FetchOutcome)
    (list_name : String) (start_date end_date : Nat) :
    Except String (List (Nat × Results)) :=
  fetchLoop http list_name start_date end_date

/-- The dates at which the loop of `fetch_historical_data` attempts a fetch:
`start, start + 7, ...` up to `finish` inclusive. -/
def attemptDates (current finish : Nat) : List Nat :=
  if current ≤ finish then current :: attemptDates (current + 7) finish
  else []
termination_by finish + 1 - current
decreasing_by omega

/-- The value produced by one (non-raising) fetch attempt at date `d`. -/
def fetchResult (http : String → Option Nat → FetchOutcome) (list_name : String)
    (d : Nat) : Option Results :=
  match get_best_sellers_by_list http list_name (some d) with
  | Except.ok r => r
  | Except.error _ => none

/-- Models `from config import API_KEY` (`get_data.py` line 12) under the
semantics of a Python import: the external `config` module either defines
the value or not; an undefined name raises ImportError at module load. -/
def importApiKey (config : Option String) : Except String String :=
  match config with
  | some key => Except.ok key
  | none => Except.error "ImportError: cannot import name API_KEY from config"

/-- The module-level state available once `get_data.py` finishes loading:
the API key bound by line 12 and the two collection handles (lines 17-20). -/
structure ModuleState where
  api_key : String
  books_collection : List Doc
  historical_collection : List Doc

/-- Loading the `get_data` module: line 12 (`from config import API_KEY`)
runs before the Mongo connection (line 17) and before any fetch or ingestion
function can be called, so a failed import aborts startup with the
ImportError and yields no module state. -/
def moduleInit (config : Option String) : Except String ModuleState :=
  match importApiKey config with
  | Except.error e => Except.error e
  | Except.ok key => Except.ok ⟨key, [], []⟩

/-- The dedup-key triple carried by a stored document. -/
def keyOfDoc (doc : Doc) : UniqueKey where
  list_name := doc.fields.list_name
  bestsellers_date := doc.fields.bestsellers_date
  primary_isbn13 := doc.fields.primary_isbn13

/-- The spec's uniqueness invariant: the (list identifier, snapshot date,
item identifier) triple is unique within the collection. -/
def UniqueTriples (coll : List Doc) : Prop :=
  (coll.map keyOfDoc).Nodup

/-- Whether a book's dedup key is absent from the collection, i.e. the
book survives the writers' skip check. -/
def isNewKey (coll : List Doc) (results : Results) (list_name : Option String)
    (book : Book) : Bool :=
  (find_one coll (uniqueKeyOf results list_name book)).isNone

/-- An all-null flat record, used only as the `getD` default. -/
def blankRecord : FlatRecord where
  list_name := Value.vnull
  bestsellers_date := Value.vnull
  published_date := Value.vnull
  rank := Value.vnull
  rank_last_week := Value.vnull
  weeks_on_list := Value.vnull
  title := Value.vnull
  author := Value.vnull
  publisher := Value.vnull
  description := Value.vnull
  price := Value.vnull
  primary_isbn10 := Value.vnull
  primary_isbn13 := Value.vnull
  amazon_product_url := Value.vnull

/-- A book entry with every key absent, used only as the `getD` default. -/
def emptyBook : Book := {}

/-- The spec's scenario item: `{rank: 1, primary_isbn13: "111", title: "Book A"}`. -/
def wBook : Book where
  rank := some (Value.vint 1)
  title := some (Value.vstr "Book A")
  primary_isbn13 := some (Value.vstr "111")

/-- The spec's scenario snapshot: list `"hardcover-fiction"`, snapshot date
`2024-01-07`, one item. -/
def wResults : Results where
  list_name := some (Value.vstr "hardcover-fiction")
  bestsellers_date := some (Value.vstr "2024-01-07")
  published_date := some (Value.vstr "2024-01-12")
  books := [wBook]

/-- A snapshot whose `books` array contains the same item twice, so both
copies carry the same dedup key. -/
def dupResults : Results where
  list_name := some (Value.vstr "hardcover-fiction")
  bestsellers_date := some (Value.vstr "2024-01-07")
  published_date := some (Value.vstr "2024-01-12")
  books := [wBook, wBook]

/-- A book with a given rank and ISBN, for building concrete batches. -/
def mkBook (r : Int) (isbn : String) : Book where
  rank := some (Value.vint r)
  primary_isbn13 := some (Value.vstr isbn)

/-- A snapshot with 5 items with pairwise-distinct ISBNs. -/
def fiveResults : Results where
  list_name := some (Value.vstr "hardcover-fiction")
  bestsellers_date := some (Value.vstr "2024-01-07")
  books := [mkBook 1 "101", mkBook 2 "102", mkBook 3 "103", mkBook 4 "104",
            mkBook 5 "105"]

/-- An HTTP layer on which every request raises a network exception. -/
def raisingHttp : String → Option Nat → FetchOutcome :=
  fun _ _ => FetchOutcome.raised "requests.exceptions.ConnectionError"

/-- A concrete non-raising API: week 0 succeeds with the scenario snapshot,
every other week reports an error status with no results. -/
def wApi : String → Option Nat → ApiData :=
  fun _ date =>
    match date with
    | some 0 => { status := some (Value.vstr "OK"), results := some wResults }
    | _ => { status := some (Value.vstr "ERROR"), results := none }

/-- A parsed response body reporting a non-success status. -/
def wBadData : ApiData where
  status := some (Value.vstr "ERROR")
  results := none

/-! ## Helper lemmas -/

theorem docOf_fields (results : Results) (list_name : Option String) (now : Nat)
    (book : Book) :
    (docOf results list_name now book).fields = flatten_book results list_name book := rfl

theorem keyOfDoc_docOf (results : Results) (list_name : Option String) (now : Nat)
    (book : Book) :
    keyOfDoc (docOf results list_name now book) = uniqueKeyOf results list_name book := rfl

theorem matchesKey_iff (key : UniqueKey) (doc : Doc) :
    matchesKey key doc = true ↔ keyOfDoc doc = key := by
  cases key
  simp [matchesKey, keyOfDoc, UniqueKey.mk.injEq, and_assoc]

theorem matchesKey_docOf_self (results : Results) (list_name : Option String)
    (now : Nat) (book : Book) :
    matchesKey (uniqueKeyOf results list_name book) (docOf results list_name now book)
      = true :=
  (matchesKey_iff _ _).mpr (keyOfDoc_docOf results list_name now book)

theorem find_one_eq_none_iff (coll : List Doc) (key : UniqueKey) :
    find_one coll key = none ↔ ∀ doc ∈ coll, keyOfDoc doc ≠ key := by
  simp [find_one, List.find?_eq_none, matchesKey_iff]

theorem find_one_isSome_iff (coll : List Doc) (key : UniqueKey) :
    (find_one coll key).isSome = true ↔ ∃ doc ∈ coll, keyOfDoc doc = key := by
  simp [find_one, List.find?_isSome, matchesKey_iff]

theorem stageDocs_eq (coll : List Doc) (results : Results)
    (list_name : Option String) (now : Nat) (books : List Book) :
    stageDocs coll results list_name now books
      = (books.filter (isNewKey coll results list_name)).map
          (docOf results list_name now) := by
  induction books with
  | nil => rfl
  | cons book rest ih =>
    cases hfo : find_one coll (uniqueKeyOf results list_name book) <;>
      simp [stageDocs, List.filter_cons, isNewKey, hfo, ih]

theorem store_books_in_mongo_eq (coll : List Doc) (results : Results)
    (list_name : Option String) (now : Nat) :
    store_books_in_mongo coll results list_name now
      = (((results.books.filter (isNewKey coll results list_name)).map
            (docOf results list_name now)).length,
         coll ++ (results.books.filter (isNewKey coll results list_name)).map
            (docOf results list_name now)) := by
  simp only [store_books_in_mongo, stageDocs_eq]
  split
  · rename_i h
    rw [List.isEmpty_iff] at h
    simp [h]
  · rfl

theorem store_books_historical_eq (coll : List Doc) (results : Results)
    (list_name : Option String) (now : Nat) :
    store_books_historical coll results list_name now
      = store_books_in_mongo coll results list_name now := rfl

theorem valueLe_trans (a b c : Value) (h1 : valueLe a b = true)
    (h2 : valueLe b c = true) : valueLe a c = true := by
  cases a <;> cases b <;> cases c <;> simp_all [valueLe] <;>
    first
    | omega
    | (apply le_trans <;> assumption)

theorem valueLe_total (a b : Value) : (valueLe a b || valueLe b a) = true := by
  cases a <;> cases b <;> simp [valueLe] <;> exact le_total _ _

theorem dateLe_trans (a b c : Doc) (h1 : dateLe a b = true)
    (h2 : dateLe b c = true) : dateLe a c = true :=
  valueLe_trans _ _ _ h1 h2

theorem dateLe_total (a b : Doc) : (dateLe a b || dateLe b a) = true :=
  valueLe_total _ _

theorem get_ok_of_response (api : String → Option Nat → ApiData)
    (list_name : String) (d : Nat) :
    get_best_sellers_by_list (fun ln x => FetchOutcome.response (api ln x))
        list_name (some d)
      = Except.ok (fetchResult (fun ln x => FetchOutcome.response (api ln x))
          list_name d) := by
  simp only [get_best_sellers_by_list, fetchResult]
  split <;> rfl

theorem fetchLoop_eq_ok (api : String → Option Nat → ApiData) (list_name : String)
    (finish current : Nat) :
    fetchLoop (fun ln x => FetchOutcome.response (api ln x)) list_name current finish
      = Except.ok ((attemptDates current finish).filterMap
          (fun d => (fetchResult (fun ln x => FetchOutcome.response (api ln x))
            list_name d).map (fun r => (d, r)))) := by
  have H : ∀ n current, finish + 1 - current ≤ n →
      fetchLoop (fun ln x => FetchOutcome.response (api ln x)) list_name current finish
        = Except.ok ((attemptDates current finish).filterMap
            (fun d => (fetchResult (fun ln x => FetchOutcome.response (api ln x))
              list_name d).map (fun r => (d, r)))) := by
    intro n
    induction n with
    | zero =>
      intro current hc
      have hgt : ¬ current ≤ finish := by omega
      rw [fetchLoop, attemptDates]
      simp [hgt]
    | succ n ih =>
      intro current hc
      rw [fetchLoop, attemptDates]
      by_cases h : current ≤ finish
      · simp only [if_pos h]
        rw [get_ok_of_response]
        cases hfr : fetchResult (fun ln x => FetchOutcome.response (api ln x))
            list_name current with
        | none =>
          simp only [List.filterMap_cons, hfr, Option.map_none']
          exact ih (current + 7) (by omega)
        | some r =>
          simp only [List.filterMap_cons, hfr, Option.map_some']
          rw [ih (current + 7) (by omega)]
      · simp [h]
  exact H (finish + 1 - current) current (le_refl _)

theorem attemptDates_length_eq (current finish : Nat) (h : current ≤ finish) :
    (attemptDates current finish).length = (finish - current) / 7 + 1 := by
  have H : ∀ n current, finish + 1 - current ≤ n → current ≤ finish →
      (attemptDates current finish).length = (finish - current) / 7 + 1 := by
    intro n
    induction n with
    | zero =>
      intro current hc hle
      exact absurd hc (by omega)
    | succ n ih =>
      intro current hc hle
      rw [attemptDates, if_pos hle]
      by_cases h7 : current + 7 ≤ finish
      · rw [List.length_cons, ih (current + 7) (by omega) h7]
        have e2 : (finish - current) / 7 = (finish - current - 7) / 7 + 1 :=
          Nat.div_eq_sub_div (by omega) (by omega)
        have e1 : finish - (current + 7) = finish - current - 7 := by omega
        omega
      · rw [attemptDates, if_neg h7]
        have hz : (finish - current) / 7 = 0 := Nat.div_eq_of_lt (by omega)
        simp [hz]
  exact H (finish + 1 - current) current (le_refl _) h

theorem attemptDates_mem_iff (current finish d : Nat) :
    d ∈ attemptDates current finish ↔
      current ≤ d ∧ d ≤ finish ∧ (d - current) % 7 = 0 := by
  have H : ∀ n current, finish + 1 - current ≤ n →
      (d ∈ attemptDates current finish ↔
        current ≤ d ∧ d ≤ finish ∧ (d - current) % 7 = 0) := by
    intro n
    induction n with
    | zero =>
      intro current hc
      have hn : ¬ current ≤ finish := by omega
      rw [attemptDates, if_neg hn]
      simp only [List.not_mem_nil, false_iff]
      omega
    | succ n ih =>
      intro current hc
      rw [attemptDates]
      by_cases hle : current ≤ finish
      · rw [if_pos hle, List.mem_cons, ih (current + 7) (by omega)]
        omega
      · rw [if_neg hle]
        simp only [List.not_mem_nil, false_iff]
        omega
  exact H (finish + 1 - current) current (le_refl _)

theorem isNewKey_true_iff (coll : List Doc) (results : Results)
    (list_name : Option String) (book : Book) :
    isNewKey coll results list_name book = true
      ↔ find_one coll (uniqueKeyOf results list_name book) = none := by
  unfold isNewKey
  cases find_one coll (uniqueKeyOf results list_name book) <;> simp

theorem isNewKey_false_iff (coll : List Doc) (results : Results)
    (list_name : Option String) (book : Book) :
    isNewKey coll results list_name book = false
      ↔ (find_one coll (uniqueKeyOf results list_name book)).isSome = true := by
  unfold isNewKey
  cases find_one coll (uniqueKeyOf results list_name book) <;> simp

/-! ## Claim theorems -/

/-- C2: for every snapshot and target collection, the deduplicating writer
computes per item the dedup key (list identifier, snapshot date,
primary_isbn13), skips an item when a record with that exact key already
exists in the collection, otherwise stamps it with the write time and stages
it; after the whole batch it performs one bulk insert of the staged records
and returns the number inserted — 0 when nothing was staged (the length of
the empty staged list); the historical writer behaves identically. -/
theorem store_writer_contract (coll : List Doc) (results : Results)
    (list_name : Option String) (now : Nat) :
    store_books_in_mongo coll results list_name now
      = (((results.books.filter (isNewKey coll results list_name)).map
            (docOf results list_name now)).length,
         coll ++ (results.books.filter (isNewKey coll results list_name)).map
            (docOf results list_name now)) ∧
    store_books_historical coll results list_name now
      = store_books_in_mongo coll results list_name now :=
  ⟨store_books_in_mongo_eq coll results list_name now,
   store_books_historical_eq coll results list_name now⟩

/-- C10: on a batch mixing already-present and new dedup keys, the writer
inserts exactly the records with new keys — the appended suffix is the
staged documents of the new-keyed items, the returned count is their number
— and leaves every already-present record in place unmodified (the
collection's original prefix is unchanged). -/
theorem store_mixed_batch (coll : List Doc) (results : Results)
    (list_name : Option String) (now : Nat) :
    (store_books_in_mongo coll results list_name now).1
      = results.books.countP (isNewKey coll results list_name) ∧
    ((store_books_in_mongo coll results list_name now).2).take coll.length = coll ∧
    ((store_books_in_mongo coll results list_name now).2).drop coll.length
      = (results.books.filter (isNewKey coll results list_name)).map
          (docOf results list_name now) ∧
    (store_books_in_mongo coll results list_name now).2.length
      = coll.length + (store_books_in_mongo coll results list_name now).1 := by
  rw [store_books_in_mongo_eq]
  refine ⟨?_, ?_, ?_, ?_⟩
  · simp [List.countP_eq_length_filter]
  · exact List.take_left coll _
  · exact List.drop_left coll _
  · simp

/-- C1: calling the deduplicating writer twice with the same batch on the
same collection inserts the batch only once: the second call returns 0
inserted records and leaves the collection — hence its record count —
exactly as after the first call; likewise for the historical writer. -/
theorem store_idempotent (coll : List Doc) (results : Results)
    (list_name : Option String) (t1 t2 : Nat) :
    store_books_in_mongo (store_books_in_mongo coll results list_name t1).2
        results list_name t2
      = (0, (store_books_in_mongo coll results list_name t1).2) ∧
    count_books (store_books_in_mongo
        (store_books_in_mongo coll results list_name t1).2 results list_name t2).2
      = count_books (store_books_in_mongo coll results list_name t1).2 ∧
    store_books_historical (store_books_historical coll results list_name t1).2
        results list_name t2
      = (0, (store_books_historical coll results list_name t1).2) := by
  set c1 := (store_books_in_mongo coll results list_name t1).2 with hc1
  have key : ∀ book ∈ results.books,
      (find_one c1 (uniqueKeyOf results list_name book)).isSome = true := by
    intro book hb
    rw [find_one_isSome_iff]
    by_cases hnew : isNewKey coll results list_name book = true
    · refine ⟨docOf results list_name t1 book, ?_, keyOfDoc_docOf _ _ _ _⟩
      rw [hc1, store_books_in_mongo_eq]
      exact List.mem_append_right _
        (List.mem_map.mpr ⟨book, List.mem_filter.mpr ⟨hb, hnew⟩, rfl⟩)
    · have hsome : (find_one coll (uniqueKeyOf results list_name book)).isSome = true :=
        (isNewKey_false_iff _ _ _ _).mp (Bool.eq_false_iff.mpr hnew)
      rcases (find_one_isSome_iff _ _).mp hsome with ⟨d, hd, hkd⟩
      refine ⟨d, ?_, hkd⟩
      rw [hc1, store_books_in_mongo_eq]
      exact List.mem_append_left _ hd
  have hfilter : results.books.filter (isNewKey c1 results list_name) = [] := by
    rw [List.filter_eq_nil_iff]
    intro book hb
    have hfalse : isNewKey c1 results list_name book = false :=
      (isNewKey_false_iff _ _ _ _).mpr (key book hb)
    simp [hfalse]
  have h1 : store_books_in_mongo c1 results list_name t2 = (0, c1) := by
    rw [store_books_in_mongo_eq, hfilter]
    simp
  refine ⟨h1, by rw [h1], ?_⟩
  simp only [store_books_historical_eq]
  exact h1

/-- C6 (amended): provided the dedup keys of the batch's items are pairwise
distinct, a write by either deduplicating writer preserves the invariant
that the (list identifier, snapshot date, item identifier) triple is unique
within the collection, because each staged record's key was absent from the
collection when its existence check ran.  (Without that proviso the claim
fails: the existence check consults only the collection, never the staged
documents, so a batch repeating a key inserts it twice — see the
counterexample.) -/
theorem store_preserves_unique_triples (coll : List Doc) (results : Results)
    (list_name : Option String) (now : Nat)
    (hcoll : UniqueTriples coll)
    (hbatch : (results.books.map (uniqueKeyOf results list_name)).Nodup) :
    UniqueTriples (store_books_in_mongo coll results list_name now).2 ∧
    UniqueTriples (store_books_historical coll results list_name now).2 := by
  have main : UniqueTriples (store_books_in_mongo coll results list_name now).2 := by
    rw [store_books_in_mongo_eq]
    unfold UniqueTriples at *
    have hkeys : ((results.books.filter (isNewKey coll results list_name)).map
          (docOf results list_name now)).map keyOfDoc
        = (results.books.filter (isNewKey coll results list_name)).map
            (uniqueKeyOf results list_name) := by
      rw [List.map_map]
      rfl
    rw [List.map_append, hkeys]
    refine List.Nodup.append hcoll ?_ ?_
    · exact ((List.filter_sublist _).map _).nodup hbatch
    · intro k hk1 hk2
      rcases List.mem_map.mp hk1 with ⟨d, hd, hkd⟩
      rcases List.mem_map.mp hk2 with ⟨book, hbf, hkb⟩
      rcases List.mem_filter.mp hbf with ⟨_, hnew⟩
      have hnone : find_one coll (uniqueKeyOf results list_name book) = none :=
        (isNewKey_true_iff _ _ _ _).mp hnew
      have hne := (find_one_eq_none_iff _ _).mp hnone d hd
      exact hne (hkd.trans hkb.symm)
  exact ⟨main, by rw [store_books_historical_eq]; exact main⟩

/-- C6 witness: inserting the one-item scenario snapshot into the empty
collection keeps the dedup triples unique. -/
theorem store_preserves_unique_triples_witness :
    UniqueTriples ([] : List Doc) ∧
    (wResults.books.map (uniqueKeyOf wResults none)).Nodup ∧
    (UniqueTriples (store_books_in_mongo [] wResults none 0).2 ∧
     UniqueTriples (store_books_historical [] wResults none 0).2) :=
  ⟨by simp [UniqueTriples], by decide,
   store_preserves_unique_triples [] wResults none 0 (by simp [UniqueTriples])
     (by decide)⟩

/-- C6 counterexample: a single write of a batch that contains the same item
twice, into an empty (hence trivially unique) collection, stages and inserts
both copies — the write returns 2 and the resulting collection holds two
documents with the same dedup triple, so the claimed invariant is not
preserved by every write. -/
theorem store_unique_triples_cex :
    UniqueTriples ([] : List Doc) ∧
    (store_books_in_mongo [] dupResults none 0).1 = 2 ∧
    ¬ UniqueTriples (store_books_in_mongo [] dupResults none 0).2 := by
  refine ⟨by simp [UniqueTriples], by decide, ?_⟩
  unfold UniqueTriples
  decide

/-- C7: a record written by the deduplicating writer into an empty collection
and read back via `get_book_history` on its primary_isbn13 comes back with
field values identical to the flattened input and the freshly stamped write
time; and the history lookup always returns its documents ordered ascending
by snapshot date. -/
theorem store_roundtrip_history (results : Results) (list_name : Option String)
    (now : Nat) (book : Book) (coll : List Doc) (isbn : Value)
    (hb : book ∈ results.books) :
    (∃ doc ∈ get_book_history (store_books_in_mongo [] results list_name now).2
        (pyGet book.primary_isbn13),
      doc.fields = flatten_book results list_name book ∧ doc.fetched_at = now) ∧
    List.Pairwise (fun a b => dateLe a b = true) (get_book_history coll isbn) := by
  constructor
  · have hstored : docOf results list_name now book
        ∈ (store_books_in_mongo [] results list_name now).2 := by
      rw [store_books_in_mongo_eq]
      refine List.mem_append_right _
        (List.mem_map.mpr ⟨book, List.mem_filter.mpr ⟨hb, ?_⟩, rfl⟩)
      rw [isNewKey_true_iff]
      rfl
    refine ⟨docOf results list_name now book, ?_, rfl, rfl⟩
    unfold get_book_history
    rw [List.Perm.mem_iff (List.mergeSort_perm _ _)]
    refine List.mem_filter.mpr ⟨hstored, ?_⟩
    simp [docOf]
  · unfold get_book_history
    exact List.sorted_mergeSort dateLe_trans dateLe_total _

/-- C7 witness: the scenario snapshot's single item, written at time 5 into
the empty collection, is read back by its ISBN with identical fields and the
new stamp. -/
theorem store_roundtrip_history_witness :
    wBook ∈ wResults.books ∧
    ((∃ doc ∈ get_book_history (store_books_in_mongo [] wResults none 5).2
        (pyGet wBook.primary_isbn13),
      doc.fields = flatten_book wResults none wBook ∧ doc.fetched_at = 5) ∧
     List.Pairwise (fun a b => dateLe a b = true) (get_book_history [] Value.vnull)) :=
  ⟨by decide, store_roundtrip_history wResults none 5 wBook [] Value.vnull (by decide)⟩

/-- C3: flattening a snapshot with N item entries is a pure function (a Lean
function of the snapshot alone) producing exactly N flat records; record i
is the flattening of item i — per-item fields read with `.get`, so an
absent field becomes the null default (`flatten_book`) — and every record
carries the snapshot's shared metadata (list identifier, snapshot date,
published date) identically. -/
theorem flatten_one_record_per_item (results : Results) (list_name : Option String)
    (i : Nat) (h : i < results.books.length) :
    (results_to_dataframe results list_name).length = results.books.length ∧
    (results_to_dataframe results list_name).getD i blankRecord
      = flatten_book results list_name (results.books.getD i emptyBook) ∧
    ((results_to_dataframe results list_name).getD i blankRecord).list_name
      = pyOrStr list_name (pyGetD results.list_name (Value.vstr "")) ∧
    ((results_to_dataframe results list_name).getD i blankRecord).bestsellers_date
      = pyGetD results.bestsellers_date (Value.vstr "") ∧
    ((results_to_dataframe results list_name).getD i blankRecord).published_date
      = pyGetD results.published_date (Value.vstr "") := by
  have key : (results_to_dataframe results list_name).getD i blankRecord
      = flatten_book results list_name (results.books.getD i emptyBook) := by
    rw [results_to_dataframe, List.getD_eq_getElem?_getD, List.getD_eq_getElem?_getD,
        List.getElem?_map, List.getElem?_eq_getElem h]
    rfl
  exact ⟨by simp [results_to_dataframe], key, by rw [key]; rfl, by rw [key]; rfl,
    by rw [key]; rfl⟩

/-- C3 witness: the scenario snapshot (one item) flattens to one record whose
metadata and fields are as stated. -/
theorem flatten_one_record_per_item_witness :
    0 < wResults.books.length ∧
    ((results_to_dataframe wResults (some "hardcover-fiction")).length
        = wResults.books.length ∧
     (results_to_dataframe wResults (some "hardcover-fiction")).getD 0 blankRecord
        = flatten_book wResults (some "hardcover-fiction")
            (wResults.books.getD 0 emptyBook) ∧
     ((results_to_dataframe wResults (some "hardcover-fiction")).getD 0
          blankRecord).list_name
        = pyOrStr (some "hardcover-fiction") (pyGetD wResults.list_name (Value.vstr "")) ∧
     ((results_to_dataframe wResults (some "hardcover-fiction")).getD 0
          blankRecord).bestsellers_date
        = pyGetD wResults.bestsellers_date (Value.vstr "") ∧
     ((results_to_dataframe wResults (some "hardcover-fiction")).getD 0
          blankRecord).published_date
        = pyGetD wResults.published_date (Value.vstr "")) :=
  ⟨by decide, flatten_one_record_per_item wResults (some "hardcover-fiction") 0 (by decide)⟩

/-- C4: over a date range [start, end] with start ≤ end iterated at fixed
7-day steps, the fetch routine attempts exactly (end - start)/7 + 1 dates —
a date is attempted iff it lies in the range and is a whole number of weeks
from the start, so no attempted date is skipped — and the routine returns
exactly the successful fetches of those attempts in order, whose number is
at most the number of attempts.  Stated for an HTTP layer that returns a
parsed response for every request; the raising case is settled with C5. -/
theorem fetch_historical_stepping (api : String → Option Nat → ApiData)
    (list_name : String) (start_date end_date d : Nat)
    (hle : start_date ≤ end_date) :
    (attemptDates start_date end_date).length = (end_date - start_date) / 7 + 1 ∧
    (d ∈ attemptDates start_date end_date ↔
      start_date ≤ d ∧ d ≤ end_date ∧ (d - start_date) % 7 = 0) ∧
    fetch_historical_data (fun ln x => FetchOutcome.response (api ln x))
        list_name start_date end_date
      = Except.ok ((attemptDates start_date end_date).filterMap
          (fun x => (fetchResult (fun ln y => FetchOutcome.response (api ln y))
            list_name x).map (fun r => (x, r)))) ∧
    ((attemptDates start_date end_date).filterMap
          (fun x => (fetchResult (fun ln y => FetchOutcome.response (api ln y))
            list_name x).map (fun r => (x, r)))).length
      ≤ (attemptDates start_date end_date).length :=
  ⟨attemptDates_length_eq _ _ hle, attemptDates_mem_iff _ _ d,
   fetchLoop_eq_ok api list_name end_date start_date,
   List.length_filterMap_le _ _⟩

/-- C4 witness: the range [0, 14] at 7-day steps has 3 attempts (days 0, 7,
14); with an API that succeeds only on day 0, one snapshot is returned. -/
theorem fetch_historical_stepping_witness :
    0 ≤ 14 ∧
    ((attemptDates 0 14).length = (14 - 0) / 7 + 1 ∧
     (7 ∈ attemptDates 0 14 ↔ 0 ≤ 7 ∧ 7 ≤ 14 ∧ (7 - 0) % 7 = 0) ∧
     fetch_historical_data (fun ln x => FetchOutcome.response (wApi ln x))
        "hardcover-fiction" 0 14
      = Except.ok ((attemptDates 0 14).filterMap
          (fun x => (fetchResult (fun ln y => FetchOutcome.response (wApi ln y))
            "hardcover-fiction" x).map (fun r => (x, r)))) ∧
     ((attemptDates 0 14).filterMap
          (fun x => (fetchResult (fun ln y => FetchOutcome.response (wApi ln y))
            "hardcover-fiction" x).map (fun r => (x, r)))).length
      ≤ (attemptDates 0 14).length) :=
  ⟨by decide, fetch_historical_stepping wApi "hardcover-fiction" 0 14 7 (by decide)⟩

/-- C5 (amended): when the HTTP response parses but reports a non-success
status or lacks a results object, the snapshot fetcher returns a null result
rather than raising, and over a date range iterated with a non-raising HTTP
layer the whole iteration completes — a null week is silently skipped and
never aborts the remaining weeks.  A raised network exception, by contrast,
propagates out of the uncaught HTTP call and aborts the iteration (see the
counterexample). -/
theorem fetch_null_on_bad_status (data : ApiData)
    (api : String → Option Nat → ApiData) (list_name : String)
    (date : Option Nat) (start_date end_date : Nat)
    (hbad : ¬(data.status = some (Value.vstr "OK") ∧ data.results.isSome = true)) :
    get_best_sellers_by_list (fun _ _ => FetchOutcome.response data) list_name date
      = Except.ok none ∧
    (fetch_historical_data (fun ln x => FetchOutcome.response (api ln x))
        list_name start_date end_date).isOk = true := by
  constructor
  · have hc : ¬((decide (data.status = some (Value.vstr "OK"))
        && data.results.isSome) = true) := by
      simp only [Bool.and_eq_true, decide_eq_true_eq]
      exact hbad
    have hdef : get_best_sellers_by_list (fun _ _ => FetchOutcome.response data)
          list_name date
        = if (decide (data.status = some (Value.vstr "OK"))
              && data.results.isSome) = true
          then Except.ok data.results else Except.ok none := rfl
    rw [hdef, if_neg hc]
  · unfold fetch_historical_data
    rw [fetchLoop_eq_ok]
    rfl

/-- C5 witness: an ERROR-status response yields a null result, and the range
[0, 14] served by a non-raising API completes despite its failed weeks. -/
theorem fetch_null_on_bad_status_witness :
    ¬(wBadData.status = some (Value.vstr "OK") ∧ wBadData.results.isSome = true) ∧
    (get_best_sellers_by_list (fun _ _ => FetchOutcome.response wBadData)
        "hardcover-fiction" (some 0) = Except.ok none ∧
     (fetch_historical_data (fun ln x => FetchOutcome.response (wApi ln x))
        "hardcover-fiction" 0 14).isOk = true) :=
  ⟨by decide,
   fetch_null_on_bad_status wBadData wApi "hardcover-fiction" (some 0) 0 14 (by decide)⟩

/-- C5 counterexample: on a network error the HTTP call raises; the snapshot
fetcher propagates the exception instead of returning a null result, and the
one raising week aborts the whole range iteration rather than being skipped. -/
theorem fetch_raises_on_network_error :
    get_best_sellers_by_list raisingHttp "hardcover-fiction" (some 0)
      = Except.error "requests.exceptions.ConnectionError" ∧
    get_best_sellers_by_list raisingHttp "hardcover-fiction" (some 0)
      ≠ Except.ok none ∧
    fetch_historical_data raisingHttp "hardcover-fiction" 0 14
      = Except.error "requests.exceptions.ConnectionError" := by
  refine ⟨rfl, by intro h; exact Except.noConfusion h, ?_⟩
  unfold fetch_historical_data
  rw [fetchLoop]
  simp [get_best_sellers_by_list, raisingHttp]

/-- C8: the bulk clear deletes every record of the collection and returns
the number deleted; in particular, after inserting 5 distinct records into
the empty collection the count is 5, clearing returns deleted-count 5, and a
subsequent row count returns 0. -/
theorem clear_all_books_spec (coll : List Doc) :
    clear_all_books coll = (count_books coll, []) ∧
    count_books (clear_all_books coll).2 = 0 ∧
    count_books (store_books_in_mongo [] fiveResults none 0).2 = 5 ∧
    (clear_all_books (store_books_in_mongo [] fiveResults none 0).2).1 = 5 ∧
    count_books (clear_all_books (store_books_in_mongo [] fiveResults none 0).2).2
      = 0 := by
  refine ⟨?_, ?_, by decide, by decide, by decide⟩
  · simp [clear_all_books, delete_many, count_books]
  · simp [clear_all_books, delete_many, count_books]

/-- C9: when the API-key configuration value is absent, loading the module
fails at startup with the descriptive ImportError raised by
`from config import API_KEY` — no module state (and hence no ingestion) is
ever produced — whereas a present key loads normally. -/
theorem missing_api_key_fails_startup :
    moduleInit none
      = Except.error "ImportError: cannot import name API_KEY from config" ∧
    (∀ st : ModuleState, moduleInit none ≠ Except.ok st) ∧
    (∀ key : String, moduleInit (some key) = Except.ok ⟨key, [], []⟩) := by
  refine ⟨rfl, ?_, fun key => rfl⟩
  intro st h
  simp [moduleInit, importApiKey] at h
